import Mathlib

/-
Verification development for backend/core/quivr_core/config.py.

The Python module is a declarative configuration layer: a static model
registry (LLMModelConfig), two validating config classes
(LLMEndpointConfig, RerankerConfig) and some composite configs.  We embed
the data model and the operations shallowly:

* the process environment (os.getenv) becomes a function
  `Env := String -> Option String`, passed explicitly;
* Pydantic construction (`__init__`) becomes a function from the field
  record (explicit input merged with the field defaults, which is what
  Pydantic produces before the custom `__init__` body runs) and the
  environment to `Except ConfigError <config>`;
* `raise ValueError(...)` becomes `Except.error` with a structured
  `ConfigError` value;
* Python dicts in the registry become association lists in insertion
  order (Python dicts iterate in insertion order);
* Python truthiness of `Optional[str]` (None and "" are falsy) is the
  function `truthyStr`.
-/

namespace QuivrConfig

/-- Process environment: maps a variable name to its value; models os.getenv. -/
def Env : Type := String → Option String

/-- Models Python str.startswith on the character lists of the two strings. -/
def pyStartsWith (s p : String) : Bool := p.data.isPrefixOf s.data

/-- Models Python str.upper on the character list of the string (all the
strings it is applied to in config.py are ASCII). -/
def pyUpper (s : String) : String := String.mk (s.data.map Char.toUpper)

/-- Models Python truthiness of an `Optional[str]` value: `None` and the empty
string are falsy, every non-empty string is truthy. -/
def truthyStr : Option String → Bool
  | none => false
  | some s => !s.isEmpty

/-- Enum `DefaultRerankers` (config.py line 23). -/
inductive DefaultRerankers where
  | COHERE
  | JINA
deriving DecidableEq, Repr

/-- The underlying string value of each `DefaultRerankers` member
(it is a `str` Enum). -/
def DefaultRerankers.val : DefaultRerankers → String
  | .COHERE => "cohere"
  | .JINA => "jina"

/-- Property `DefaultRerankers.default_model` (config.py lines 27-33). -/
def DefaultRerankers.default_model : DefaultRerankers → String
  | .COHERE => "rerank-multilingual-v3.0"
  | .JINA => "jina-reranker-v2-base-multilingual"

/-- Enum `DefaultModelSuppliers` (config.py line 36). -/
inductive DefaultModelSuppliers where
  | OPENAI
  | AZURE
  | ANTHROPIC
  | META
  | MISTRAL
  | GROQ
deriving DecidableEq, Repr

/-- The underlying string value of each `DefaultModelSuppliers` member
(it is a `str` Enum). -/
def DefaultModelSuppliers.val : DefaultModelSuppliers → String
  | .OPENAI => "openai"
  | .AZURE => "azure"
  | .ANTHROPIC => "anthropic"
  | .META => "meta"
  | .MISTRAL => "mistral"
  | .GROQ => "groq"

/-- Class `LLMConfig` (config.py line 45): context window and tokenizer hub,
both optional with default `None`. -/
structure LLMConfig where
  context : Option Nat := none
  tokenizer_hub : Option String := none
deriving DecidableEq, Repr

/-- The structured counterpart of the `ValueError` / `AttributeError`
messages raised by config.py.  Claims never depend on the exact message
text, so the embedding records which error was raised and its data. -/
inductive ConfigError where
  /-- `ValueError` of `set_api_key` / `RerankerConfig.validate_model`:
  carries the supplier's string value and the environment variable named
  in the message. -/
  | missingApiKey (supplier : String) (env_variable_name : String)
  /-- `ValueError` of `set_llm_model`: no supplier matches the model. -/
  | unknownModel (model : String)
  /-- `AttributeError` of `set_from_sqlmodel`: one of the two attribute
  names in a mapping entry does not exist. -/
  | invalidMapping (model_field : String) (llm_field : String)
deriving DecidableEq, Repr

deriving instance DecidableEq for Except

namespace LLMModelConfig

/-- The `DefaultModelSuppliers.OPENAI` inner dict of `_model_defaults`
(config.py lines 52-69), as an association list in insertion order. -/
def openai_models : List (String × LLMConfig) :=
  [ ("gpt-4o", { context := some 128000, tokenizer_hub := some "Xenova/gpt-4o" }),
    ("gpt-4o-mini", { context := some 128000, tokenizer_hub := some "Xenova/gpt-4o" }),
    ("gpt-4-turbo", { context := some 128000, tokenizer_hub := some "Xenova/gpt-4" }),
    ("gpt-4", { context := some 8192, tokenizer_hub := some "Xenova/gpt-4" }),
    ("gpt-3.5-turbo", { context := some 16385, tokenizer_hub := some "Xenova/gpt-3.5-turbo" }),
    ("text-embedding-3-large", { context := some 8191, tokenizer_hub := some "Xenova/text-embedding-ada-002" }),
    ("text-embedding-3-small", { context := some 8191, tokenizer_hub := some "Xenova/text-embedding-ada-002" }),
    ("text-embedding-ada-002", { context := some 8191, tokenizer_hub := some "Xenova/text-embedding-ada-002" }) ]

/-- The `DefaultModelSuppliers.ANTHROPIC` inner dict of `_model_defaults`
(config.py lines 70-92). -/
def anthropic_models : List (String × LLMConfig) :=
  [ ("claude-3-5-sonnet", { context := some 200000, tokenizer_hub := some "Xenova/claude-tokenizer" }),
    ("claude-3-opus", { context := some 200000, tokenizer_hub := some "Xenova/claude-tokenizer" }),
    ("claude-3-sonnet", { context := some 200000, tokenizer_hub := some "Xenova/claude-tokenizer" }),
    ("claude-3-haiku", { context := some 200000, tokenizer_hub := some "Xenova/claude-tokenizer" }),
    ("claude-2-1", { context := some 200000, tokenizer_hub := some "Xenova/claude-tokenizer" }),
    ("claude-2-0", { context := some 100000, tokenizer_hub := some "Xenova/claude-tokenizer" }),
    ("claude-instant-1-2", { context := some 100000, tokenizer_hub := some "Xenova/claude-tokenizer" }) ]

/-- The `DefaultModelSuppliers.META` inner dict of `_model_defaults`
(config.py lines 93-104). -/
def meta_models : List (String × LLMConfig) :=
  [ ("llama-3.1", { context := some 128000, tokenizer_hub := some "Xenova/Meta-Llama-3.1-Tokenizer" }),
    ("llama-3", { context := some 8192, tokenizer_hub := some "Xenova/llama3-tokenizer-new" }),
    ("llama-2", { context := some 4096, tokenizer_hub := some "Xenova/llama2-tokenizer" }),
    ("code-llama", { context := some 16384, tokenizer_hub := some "Xenova/llama-code-tokenizer" }) ]

/-- The `DefaultModelSuppliers.GROQ` inner dict of `_model_defaults`
(config.py lines 105-116); same entries as the META dict. -/
def groq_models : List (String × LLMConfig) :=
  [ ("llama-3.1", { context := some 128000, tokenizer_hub := some "Xenova/Meta-Llama-3.1-Tokenizer" }),
    ("llama-3", { context := some 8192, tokenizer_hub := some "Xenova/llama3-tokenizer-new" }),
    ("llama-2", { context := some 4096, tokenizer_hub := some "Xenova/llama2-tokenizer" }),
    ("code-llama", { context := some 16384, tokenizer_hub := some "Xenova/llama-code-tokenizer" }) ]

/-- The `DefaultModelSuppliers.MISTRAL` inner dict of `_model_defaults`
(config.py lines 117-130). -/
def mistral_models : List (String × LLMConfig) :=
  [ ("mistral-large", { context := some 128000, tokenizer_hub := some "Xenova/mistral-tokenizer-v3" }),
    ("mistral-small", { context := some 128000, tokenizer_hub := some "Xenova/mistral-tokenizer-v3" }),
    ("mistral-nemo", { context := some 128000, tokenizer_hub := some "Xenova/Mistral-Nemo-Instruct-Tokenizer" }),
    ("codestral", { context := some 32000, tokenizer_hub := some "Xenova/mistral-tokenizer-v3" }) ]

/-- `LLMModelConfig._model_defaults` (config.py lines 51-131), as an
association list in the insertion order of the Python dict literal:
supplier, then list of (model-name key, LLMConfig) in insertion order. -/
def model_defaults : List (DefaultModelSuppliers × List (String × LLMConfig)) :=
  [ (.OPENAI, openai_models),
    (.ANTHROPIC, anthropic_models),
    (.META, meta_models),
    (.GROQ, groq_models),
    (.MISTRAL, mistral_models) ]

/-- The inner loop of `get_supplier_by_model_name` (config.py lines 138-140):
`for base_model_name in models: if model.startswith(base_model_name): return supplier`,
i.e. does any registered key of one supplier match the model by startswith. -/
def anyKeyMatches (model : String) : List (String × LLMConfig) → Bool
  | [] => false
  | q :: rest => if pyStartsWith model q.1 then true else anyKeyMatches model rest

/-- The outer loop of `get_supplier_by_model_name` (config.py lines 136-140):
scan the suppliers in registration order, return the first whose key list
has a startswith match. -/
def firstMatchingSupplier (model : String) :
    List (DefaultModelSuppliers × List (String × LLMConfig)) →
    Option DefaultModelSuppliers
  | [] => none
  | p :: rest =>
      if anyKeyMatches model p.2 then some p.1 else firstMatchingSupplier model rest

/-- Classmethod `LLMModelConfig.get_supplier_by_model_name`
(config.py lines 133-142). -/
def get_supplier_by_model_name (model : String) : Option DefaultModelSuppliers :=
  firstMatchingSupplier model model_defaults

/-- Models `cls._model_defaults.get(supplier)`: dict lookup by key
(keys are unique in the dict literal, so first match is the entry). -/
def dictGet (supplier : DefaultModelSuppliers) :
    List (DefaultModelSuppliers × List (String × LLMConfig)) →
    Option (List (String × LLMConfig))
  | [] => none
  | p :: rest => if p.1 = supplier then some p.2 else dictGet supplier rest

/-- The loop of `get_llm_model_config` (config.py lines 154-156):
`for key, config in supplier_defaults.items(): if model_name.startswith(key): return config`. -/
def firstMatchingConfig (model_name : String) : List (String × LLMConfig) → Option LLMConfig
  | [] => none
  | q :: rest => if pyStartsWith model_name q.1 then some q.2 else firstMatchingConfig model_name rest

/-- Classmethod `LLMModelConfig.get_llm_model_config` (config.py lines 144-158).
`if not supplier_defaults: return None` catches both a missing supplier and an
(unused in the registry) empty key dict, hence the isEmpty test. -/
def get_llm_model_config (supplier : DefaultModelSuppliers) (model_name : String) :
    Option LLMConfig :=
  match dictGet supplier model_defaults with
  | none => none
  | some supplier_defaults =>
      if supplier_defaults.isEmpty then none
      else firstMatchingConfig model_name supplier_defaults

end LLMModelConfig

/-- Class `LLMEndpointConfig` (config.py lines 161-232): the field record.
`temperature: float = 0.7` is inert data (never computed with), embedded as a
rational; `prompt: CustomPromptsModel | None` is an external opaque class,
embedded as `Option Unit`.  Pydantic merges explicit keyword input with the
field defaults below before the custom `__init__` body runs, so `construct`
takes the merged record as input. -/
structure LLMEndpointConfig where
  supplier : DefaultModelSuppliers := .OPENAI
  model : String := "gpt-3.5-turbo-0125"
  context_length : Option Nat := none
  tokenizer_hub : Option String := none
  llm_base_url : Option String := none
  env_variable_name : String := pyUpper DefaultModelSuppliers.OPENAI.val ++ "_API_KEY"
  llm_api_key : Option String := none
  max_input_tokens : Nat := 2000
  max_output_tokens : Nat := 2000
  temperature : Rat := ⟨7, 10, by norm_num, by norm_num⟩
  streaming : Bool := true
  prompt : Option Unit := none
deriving DecidableEq, Repr

namespace LLMEndpointConfig

/-- The class-body default of `env_variable_name` (config.py line 167):
the f-string `f"\x7bsupplier.upper()\x7d_API_KEY"` is evaluated once, at class
definition time, where `supplier` is the class attribute just bound on
line 162, i.e. `DefaultModelSuppliers.OPENAI` (a str Enum with value
"openai"), so the default is the constant string "OPENAI_API_KEY" for
every instance, whatever supplier the instance is constructed with. -/
def default_env_variable_name : String :=
  pyUpper DefaultModelSuppliers.OPENAI.val ++ "_API_KEY"

/-- The record of all field defaults of `LLMEndpointConfig`. -/
def defaults : LLMEndpointConfig := {}

/-- Method `LLMEndpointConfig.set_llm_model_config` (config.py lines 197-204):
if the registry has a config for (supplier, model) overwrite context_length
and tokenizer_hub with it, otherwise change nothing. -/
def set_llm_model_config (c : LLMEndpointConfig) : LLMEndpointConfig :=
  match LLMModelConfig.get_llm_model_config c.supplier c.model with
  | some llm_model_config =>
      { c with context_length := llm_model_config.context,
               tokenizer_hub := llm_model_config.tokenizer_hub }
  | none => c

/-- The value `self.llm_api_key` holds after the first conditional of
`set_api_key` (config.py lines 188-189): the key is re-read from
`os.getenv(self.env_variable_name)` when it is falsy or force_reset is
passed, and kept otherwise. -/
def effective_key (c : LLMEndpointConfig) (force_reset : Bool) (env : Env) :
    Option String :=
  if !truthyStr c.llm_api_key || force_reset then env c.env_variable_name
  else c.llm_api_key

/-- Method `LLMEndpointConfig.set_api_key` (config.py lines 186-195):
if the current key is falsy (None or "") or force_reset is set, replace it
with `os.getenv(self.env_variable_name)`; then fail if the result is still
falsy.  On failure the Python object keeps the mutated (falsy) key but the
exception propagates; the embedding returns only the error. -/
def set_api_key (c : LLMEndpointConfig) (force_reset : Bool) (env : Env) :
    Except ConfigError LLMEndpointConfig :=
  if truthyStr (effective_key c force_reset env) then
    .ok { c with llm_api_key := effective_key c force_reset env }
  else .error (.missingApiKey c.supplier.val c.env_variable_name)

/-- Constructor `LLMEndpointConfig.__init__` (config.py lines 181-184):
after Pydantic field assignment, run `set_llm_model_config` then
`set_api_key` (with its default `force_reset=False`). -/
def construct (data : LLMEndpointConfig) (env : Env) :
    Except ConfigError LLMEndpointConfig :=
   set_api_key (set_llm_model_config data) false env

/-- Method `LLMEndpointConfig.set_llm_model` (config.py lines 206-216):
reverse-look-up the supplier, fail if none matches, else set supplier and
model, re-run the registry resolution and force the API-key re-read. -/
def set_llm_model (c : LLMEndpointConfig) (model : String) (env : Env) :
    Except ConfigError LLMEndpointConfig :=
  match LLMModelConfig.get_supplier_by_model_name model with
  | none => .error (.unknownModel model)
  | some supplier =>
       set_api_key (set_llm_model_config { c with supplier := supplier, model := model }) true env

end LLMEndpointConfig

/-
Method `LLMEndpointConfig.set_from_sqlmodel` (config.py lines 218-232) works
on dynamic attributes (hasattr / getattr / setattr), so we embed objects as
association lists from attribute name to value; `α` is the value type.
An object's attribute names are unique, but none of the definitions below
need that.
-/

/-- Models Python `hasattr(o, name)` on an attribute map. -/
def hasAttr {α : Type} : List (String × α) → String → Bool
  | [], _ => false
  | p :: rest, name => if p.1 = name then true else hasAttr rest name

/-- Models Python `getattr(o, name)` on an attribute map (None when the
attribute does not exist, where Python would raise; `set_from_sqlmodel`
only calls it after `hasattr` holds). -/
def getAttr {α : Type} : List (String × α) → String → Option α
  | [], _ => none
  | p :: rest, name => if p.1 = name then some p.2 else getAttr rest name

/-- Models Python `setattr(o, name, v)` on an attribute map: rebind the
existing attribute, leave everything else unchanged. -/
def setAttr {α : Type} (name : String) (v : α) : List (String × α) → List (String × α)
  | [] => []
  | p :: rest => if p.1 = name then (p.1, v) :: setAttr name v rest
                 else p :: setAttr name v rest

/-- Method `LLMEndpointConfig.set_from_sqlmodel` (config.py lines 218-232):
iterate the mapping entries in order; for `(model_field, llm_field)`, if
the source object has `model_field` and the config has `llm_field`, copy
the value across, else raise `AttributeError` (leaving the earlier entries
already applied, which the Except result drops). -/
def set_from_sqlmodel {α : Type} (sqlmodel : List (String × α)) :
    List (String × α) → List (String × String) → Except ConfigError (List (String × α))
  | self, [] => .ok self
  | self, (model_field, llm_field) :: rest =>
      match getAttr sqlmodel model_field, hasAttr self llm_field with
      | some v, true => set_from_sqlmodel sqlmodel (setAttr llm_field v self) rest
      | _, _ => .error (.invalidMapping model_field llm_field)

/-- Class `RerankerConfig` (config.py lines 236-260): the field record,
with the same construction convention as `LLMEndpointConfig`. -/
structure RerankerConfig where
  supplier : Option DefaultRerankers := none
  model : Option String := none
  top_n : Nat := 5
  api_key : Option String := none
deriving DecidableEq, Repr

namespace RerankerConfig

/-- The record of all field defaults of `RerankerConfig`. -/
def defaults : RerankerConfig := {}

/-- The environment variable consulted by `validate_model`
(config.py line 253): `f"\x7bself.supplier.upper()\x7d_API_KEY"`, built from the
instance's own supplier (unlike `LLMEndpointConfig`, this one is per
supplier). -/
def api_key_var (supplier : DefaultRerankers) : String :=
  pyUpper supplier.val ++ "_API_KEY"

/-- The first conditional of `validate_model` (config.py lines 248-249):
if model is None and supplier is not None, default the model from the
supplier. -/
def apply_default_model (r : RerankerConfig) : RerankerConfig :=
  match r.model, r.supplier with
  | none, some supplier => { r with model := some supplier.default_model }
  | _, _ => r

/-- Method `RerankerConfig.validate_model` (config.py lines 246-260):
default the model from the supplier when absent; when a supplier is set
(enum members are truthy), unconditionally overwrite `api_key` with
`os.getenv(f"\x7bself.supplier.upper()\x7d_API_KEY")` and fail if that is None
(note: the check is `is None`, so an empty-string environment value
passes). -/
def validate_model (r : RerankerConfig) (env : Env) : Except ConfigError RerankerConfig :=
  match (apply_default_model r).supplier with
  | some supplier =>
      match env (api_key_var supplier) with
      | none => .error (.missingApiKey supplier.val (api_key_var supplier))
      | some k => .ok { apply_default_model r with api_key := some k }
  | none => .ok (apply_default_model r)

/-- Constructor `RerankerConfig.__init__` (config.py lines 242-244):
Pydantic field assignment then `validate_model`. -/
def construct (data : RerankerConfig) (env : Env) : Except ConfigError RerankerConfig :=
  validate_model data env

end RerankerConfig

/-
Concrete inputs used to instantiate the theorems below on closed data.
-/

/-- An environment with no variable set. -/
def envEmpty : Env := fun _ => none

/-- An environment where only OPENAI_API_KEY is set. -/
def envOpenAIOnly : Env :=
  fun v => if v = "OPENAI_API_KEY" then some "sk-test" else none

/-- An environment where only ANTHROPIC_API_KEY is set. -/
def envAnthropicOnly : Env :=
  fun v => if v = "ANTHROPIC_API_KEY" then some "anth-key" else none

/-- An environment where only COHERE_API_KEY is set. -/
def envCohereOnly : Env :=
  fun v => if v = "COHERE_API_KEY" then some "cohere-key" else none

/-- The result of `LLMEndpointConfig()` under `envOpenAIOnly`. -/
def endpointDefaultResult : LLMEndpointConfig :=
  { LLMEndpointConfig.defaults with
      context_length := some 16385
      tokenizer_hub := some "Xenova/gpt-3.5-turbo"
      llm_api_key := some "sk-test" }

/-- The result of `set_llm_model("claude-3-opus-20240229")` on the default
config under `envOpenAIOnly`. -/
def claudeOpusResult : LLMEndpointConfig :=
  { LLMEndpointConfig.defaults with
      supplier := .ANTHROPIC
      model := "claude-3-opus-20240229"
      context_length := some 200000
      tokenizer_hub := some "Xenova/claude-tokenizer"
      llm_api_key := some "sk-test" }

/-- The result of `RerankerConfig(supplier=COHERE)` under `envCohereOnly`. -/
def cohereRerankerResult : RerankerConfig :=
  { supplier := some .COHERE
    model := some "rerank-multilingual-v3.0"
    top_n := 5
    api_key := some "cohere-key" }

/-- A config record whose model matches no registered key of its supplier. -/
def mysteryModelInput : LLMEndpointConfig :=
  { LLMEndpointConfig.defaults with model := "mystery-model" }

/-
Helper lemmas shared by the claim theorems.
-/

theorem truthyStr_ne_none {k : Option String} (h : truthyStr k = true) : k ≠ none := by
  cases k with
  | none => simp [truthyStr] at h
  | some s => simp

theorem truthyStr_of_some_ne_empty {s : String} (h : s ≠ "") :
    truthyStr (some s) = true := by
  have he : s.isEmpty = false := by
    rw [Bool.eq_false_iff]
    intro hx
    exact h ((String.isEmpty_iff s).mp hx)
  simp [truthyStr, he]

namespace LLMModelConfig

theorem anyKeyMatches_eq_any (m : String) (l : List (String × LLMConfig)) :
    anyKeyMatches m l = l.any (fun q => pyStartsWith m q.1) := by
  induction l with
  | nil => rfl
  | cons q rest ih => by_cases hq : pyStartsWith m q.1 <;> simp [anyKeyMatches, hq, ih]

theorem anyKeyMatches_false_iff (m : String) (l : List (String × LLMConfig)) :
    anyKeyMatches m l = false ↔ ∀ q ∈ l, pyStartsWith m q.1 = false := by
  rw [anyKeyMatches_eq_any, List.any_eq_false]
  simp only [Bool.not_eq_true]

theorem firstMatchingSupplier_eq_find (m : String)
    (l : List (DefaultModelSuppliers × List (String × LLMConfig))) :
    firstMatchingSupplier m l
      = (l.find? (fun p => anyKeyMatches m p.2)).map Prod.fst := by
  induction l with
  | nil => rfl
  | cons p rest ih =>
    by_cases hp : anyKeyMatches m p.2 <;>
      simp [firstMatchingSupplier, List.find?_cons, hp, ih]

theorem firstMatchingConfig_eq_find (m : String) (l : List (String × LLMConfig)) :
    firstMatchingConfig m l
      = (l.find? (fun q => pyStartsWith m q.1)).map Prod.snd := by
  induction l with
  | nil => rfl
  | cons q rest ih =>
    by_cases hq : pyStartsWith m q.1 <;>
      simp [firstMatchingConfig, List.find?_cons, hq, ih]

end LLMModelConfig

namespace LLMEndpointConfig

theorem endpoint_construct_def (d : LLMEndpointConfig) (env : Env) :
    construct d env = set_api_key (set_llm_model_config d) false env := rfl

theorem set_llm_model_of_none {c : LLMEndpointConfig} {model : String} {env : Env}
    (h : LLMModelConfig.get_supplier_by_model_name model = none) :
    set_llm_model c model env = .error (.unknownModel model) := by
  unfold set_llm_model
  rw [h]

theorem set_llm_model_of_some {c : LLMEndpointConfig} {model : String} {env : Env}
    {s : DefaultModelSuppliers}
    (h : LLMModelConfig.get_supplier_by_model_name model = some s) :
    set_llm_model c model env
      = set_api_key (set_llm_model_config { c with supplier := s, model := model })
          true env := by
  unfold set_llm_model
  rw [h]

theorem set_llm_model_config_of_none {c : LLMEndpointConfig}
    (h : LLMModelConfig.get_llm_model_config c.supplier c.model = none) :
    set_llm_model_config c = c := by
  unfold set_llm_model_config
  rw [h]

theorem set_llm_model_config_of_some {c : LLMEndpointConfig} {g : LLMConfig}
    (h : LLMModelConfig.get_llm_model_config c.supplier c.model = some g) :
    set_llm_model_config c
      = { c with context_length := g.context, tokenizer_hub := g.tokenizer_hub } := by
  unfold set_llm_model_config
  rw [h]

theorem set_llm_model_config_fields (c : LLMEndpointConfig) :
    (set_llm_model_config c).supplier = c.supplier ∧
    (set_llm_model_config c).model = c.model ∧
    (set_llm_model_config c).llm_base_url = c.llm_base_url ∧
    (set_llm_model_config c).env_variable_name = c.env_variable_name ∧
    (set_llm_model_config c).llm_api_key = c.llm_api_key ∧
    (set_llm_model_config c).max_input_tokens = c.max_input_tokens ∧
    (set_llm_model_config c).max_output_tokens = c.max_output_tokens ∧
    (set_llm_model_config c).temperature = c.temperature ∧
    (set_llm_model_config c).streaming = c.streaming ∧
    (set_llm_model_config c).prompt = c.prompt := by
  unfold set_llm_model_config
  cases LLMModelConfig.get_llm_model_config c.supplier c.model <;>
    exact ⟨rfl, rfl, rfl, rfl, rfl, rfl, rfl, rfl, rfl, rfl⟩

theorem set_api_key_ok_inv {c c2 : LLMEndpointConfig} {fr : Bool} {env : Env}
    (h : set_api_key c fr env = .ok c2) :
    c2 = { c with llm_api_key := effective_key c fr env } ∧
    truthyStr (effective_key c fr env) = true := by
  unfold set_api_key at h
  split at h
  · next hcond => exact ⟨(Except.ok.inj h).symm, hcond⟩
  · simp at h

theorem set_api_key_error_inv {c : LLMEndpointConfig} {fr : Bool} {env : Env}
    {e : ConfigError} (h : set_api_key c fr env = .error e) :
    e = .missingApiKey c.supplier.val c.env_variable_name ∧
    truthyStr (effective_key c fr env) = false := by
  unfold set_api_key at h
  split at h
  · simp at h
  · next hcond => exact ⟨(Except.error.inj h).symm, by simpa using hcond⟩

theorem set_api_key_ok_of_truthy {c : LLMEndpointConfig} {fr : Bool} {env : Env}
    (h : truthyStr (effective_key c fr env) = true) :
    set_api_key c fr env = .ok { c with llm_api_key := effective_key c fr env } := by
  unfold set_api_key
  rw [h]
  rfl

theorem set_api_key_error_of_falsy {c : LLMEndpointConfig} {fr : Bool} {env : Env}
    (h : truthyStr (effective_key c fr env) = false) :
    set_api_key c fr env = .error (.missingApiKey c.supplier.val c.env_variable_name) := by
  unfold set_api_key
  rw [h]
  rfl

theorem effective_key_of_falsy {c : LLMEndpointConfig} {fr : Bool} {env : Env}
    (h : truthyStr c.llm_api_key = false) :
    effective_key c fr env = env c.env_variable_name := by
  simp [effective_key, h]

theorem effective_key_force (c : LLMEndpointConfig) (env : Env) :
    effective_key c true env = env c.env_variable_name := by
  simp [effective_key]

theorem effective_key_of_truthy {c : LLMEndpointConfig} {env : Env}
    (h : truthyStr c.llm_api_key = true) :
    effective_key c false env = c.llm_api_key := by
  simp [effective_key, h]

theorem set_llm_model_ok_inv {c c2 : LLMEndpointConfig} {model : String}
    {env : Env} {s : DefaultModelSuppliers} {g : LLMConfig}
    (hs : LLMModelConfig.get_supplier_by_model_name model = some s)
    (hg : LLMModelConfig.get_llm_model_config s model = some g)
    (h : set_llm_model c model env = .ok c2) :
    c2.supplier = s ∧ c2.model = model ∧ c2.context_length = g.context ∧
    c2.tokenizer_hub = g.tokenizer_hub := by
  rw [set_llm_model_of_some hs] at h
  obtain ⟨hc2, -⟩ := set_api_key_ok_inv h
  have hg2 : LLMModelConfig.get_llm_model_config
      ({ c with supplier := s, model := model } : LLMEndpointConfig).supplier
      ({ c with supplier := s, model := model } : LLMEndpointConfig).model
      = some g := hg
  rw [set_llm_model_config_of_some hg2] at hc2
  rw [hc2]
  exact ⟨rfl, rfl, rfl, rfl⟩

theorem construct_error_of_no_key {d : LLMEndpointConfig} {env : Env}
    (h1 : truthyStr d.llm_api_key = false)
    (h2 : truthyStr (env d.env_variable_name) = false) :
    construct d env = .error (.missingApiKey d.supplier.val d.env_variable_name) := by
  obtain ⟨hsup, -, -, henv, hkey, -⟩ := set_llm_model_config_fields d
  have hk1 : truthyStr (set_llm_model_config d).llm_api_key = false := by
    rw [hkey]; exact h1
  have heff : truthyStr (effective_key (set_llm_model_config d) false env) = false := by
    rw [effective_key_of_falsy hk1, henv]; exact h2
  rw [endpoint_construct_def, set_api_key_error_of_falsy heff, hsup, henv]

end LLMEndpointConfig

namespace RerankerConfig

theorem reranker_construct_def (d : RerankerConfig) (env : Env) :
    construct d env = validate_model d env := rfl

theorem apply_default_model_supplier (r : RerankerConfig) :
    (apply_default_model r).supplier = r.supplier := by
  obtain ⟨s, m, t, a⟩ := r
  cases m <;> cases s <;> rfl

theorem validate_model_of_supplier {r : RerankerConfig} {env : Env}
    {s : DefaultRerankers} (hs : r.supplier = some s) :
    validate_model r env =
      match env (api_key_var s) with
      | none => .error (.missingApiKey s.val (api_key_var s))
      | some k => .ok { apply_default_model r with api_key := some k } := by
  unfold validate_model
  rw [apply_default_model_supplier, hs]

theorem validate_model_of_no_supplier {r : RerankerConfig} {env : Env}
    (hs : r.supplier = none) :
    validate_model r env = .ok (apply_default_model r) := by
  unfold validate_model
  rw [apply_default_model_supplier, hs]

end RerankerConfig

theorem hasAttr_iff_getAttr {α : Type} (o : List (String × α)) (n : String) :
    hasAttr o n = true ↔ ∃ v, getAttr o n = some v := by
  induction o with
  | nil => simp [hasAttr, getAttr]
  | cons p rest ih => by_cases hp : p.1 = n <;> simp [hasAttr, getAttr, hp, ih]

theorem hasAttr_setAttr {α : Type} (o : List (String × α)) (n m : String) (v : α) :
    hasAttr (setAttr n v o) m = hasAttr o m := by
  induction o with
  | nil => rfl
  | cons p rest ih =>
    by_cases hp : p.1 = n
    · by_cases hm : p.1 = m
      · have hmn : m = n := hm.symm.trans hp
        simp [setAttr, hasAttr, hp, hm, hmn, ih]
      · simp [setAttr, hasAttr, hp, hm, ih]
    · by_cases hm : p.1 = m
      · have hmn : ¬m = n := fun e => hp (hm.trans e)
        simp [setAttr, hasAttr, hp, hm, hmn, ih]
      · simp [setAttr, hasAttr, hp, hm, ih]

theorem getAttr_setAttr_self {α : Type} {o : List (String × α)} {n : String}
    (v : α) (h : hasAttr o n = true) : getAttr (setAttr n v o) n = some v := by
  induction o with
  | nil => simp [hasAttr] at h
  | cons p rest ih =>
    by_cases hp : p.1 = n
    · simp [setAttr, getAttr, hp]
    · simp only [hasAttr, hp, if_false] at h
      simp [setAttr, getAttr, hp, ih h]

theorem getAttr_setAttr_ne {α : Type} (o : List (String × α)) {n m : String}
    (v : α) (h : m ≠ n) : getAttr (setAttr n v o) m = getAttr o m := by
  induction o with
  | nil => rfl
  | cons p rest ih =>
    have hnm : ¬n = m := fun e => h e.symm
    by_cases hp : p.1 = n
    · have hm : p.1 ≠ m := fun e => h (e.symm.trans hp)
      simp [setAttr, getAttr, hp, hm, hnm, ih]
    · by_cases hm : p.1 = m <;> simp [setAttr, getAttr, hp, hm, h, hnm, ih]

theorem set_from_sqlmodel_cons_ok {α : Type} {sqlmodel self : List (String × α)}
    {mf lf : String} {v : α} (rest : List (String × String))
    (hg : getAttr sqlmodel mf = some v) (hb : hasAttr self lf = true) :
    set_from_sqlmodel sqlmodel self ((mf, lf) :: rest)
      = set_from_sqlmodel sqlmodel (setAttr lf v self) rest := by
  conv_lhs => rw [set_from_sqlmodel]
  rw [hg, hb]

theorem set_from_sqlmodel_cons_err_src {α : Type}
    {sqlmodel self : List (String × α)} {mf lf : String}
    (rest : List (String × String)) (hg : getAttr sqlmodel mf = none) :
    set_from_sqlmodel sqlmodel self ((mf, lf) :: rest)
      = .error (.invalidMapping mf lf) := by
  unfold set_from_sqlmodel
  rw [hg]

theorem set_from_sqlmodel_cons_err_tgt {α : Type}
    {sqlmodel self : List (String × α)} {mf lf : String}
    (rest : List (String × String)) (hb : hasAttr self lf = false) :
    set_from_sqlmodel sqlmodel self ((mf, lf) :: rest)
      = .error (.invalidMapping mf lf) := by
  unfold set_from_sqlmodel
  rw [hb]
  cases getAttr sqlmodel mf <;> rfl

theorem set_from_sqlmodel_ok_iff {α : Type} (sqlmodel : List (String × α))
    (mapping : List (String × String)) :
    ∀ self : List (String × α),
      (∃ r, set_from_sqlmodel sqlmodel self mapping = .ok r) ↔
      (∀ e ∈ mapping, hasAttr sqlmodel e.1 = true ∧ hasAttr self e.2 = true) := by
  induction mapping with
  | nil => intro self; simp [set_from_sqlmodel]
  | cons en rest ih =>
    intro self
    obtain ⟨mf, lf⟩ := en
    constructor
    · rintro ⟨r, hr⟩
      cases hg : getAttr sqlmodel mf with
      | none => rw [set_from_sqlmodel_cons_err_src rest hg] at hr; simp at hr
      | some v =>
        cases hb : hasAttr self lf with
        | false => rw [set_from_sqlmodel_cons_err_tgt rest hb] at hr; simp at hr
        | true =>
          rw [set_from_sqlmodel_cons_ok rest hg hb] at hr
          have hrest := (ih (setAttr lf v self)).mp ⟨r, hr⟩
          intro e he
          cases List.mem_cons.mp he with
          | inl heq =>
            rw [heq]
            exact ⟨(hasAttr_iff_getAttr sqlmodel mf).mpr ⟨v, hg⟩, hb⟩
          | inr hin =>
            have h2 := (hrest e hin).2
            rw [hasAttr_setAttr] at h2
            exact ⟨(hrest e hin).1, h2⟩
    · intro H
      obtain ⟨h1, h2⟩ := H (mf, lf) (List.mem_cons_self _ _)
      obtain ⟨v, hg⟩ := (hasAttr_iff_getAttr sqlmodel mf).mp h1
      rw [set_from_sqlmodel_cons_ok rest hg h2]
      refine (ih (setAttr lf v self)).mpr ?_
      intro e he
      refine ⟨(H e (List.mem_cons_of_mem _ he)).1, ?_⟩
      rw [hasAttr_setAttr]
      exact (H e (List.mem_cons_of_mem _ he)).2

theorem set_from_sqlmodel_error_of_invalid {α : Type}
    (sqlmodel : List (String × α)) (mapping : List (String × String)) :
    ∀ self : List (String × α),
      (∃ e ∈ mapping, hasAttr sqlmodel e.1 = false ∨ hasAttr self e.2 = false) →
      ∃ e ∈ mapping, (hasAttr sqlmodel e.1 = false ∨ hasAttr self e.2 = false) ∧
        set_from_sqlmodel sqlmodel self mapping
          = .error (.invalidMapping e.1 e.2) := by
  induction mapping with
  | nil => intro self h; simp at h
  | cons en rest ih =>
    intro self hbad
    obtain ⟨mf, lf⟩ := en
    cases hg : getAttr sqlmodel mf with
    | none =>
      have h1 : hasAttr sqlmodel mf = false := by
        cases hh : hasAttr sqlmodel mf
        · rfl
        · obtain ⟨v, hv⟩ := (hasAttr_iff_getAttr sqlmodel mf).mp hh
          rw [hv] at hg
          cases hg
      exact ⟨(mf, lf), List.mem_cons_self _ _, Or.inl h1,
        set_from_sqlmodel_cons_err_src rest hg⟩
    | some v =>
      cases hb : hasAttr self lf with
      | false =>
        exact ⟨(mf, lf), List.mem_cons_self _ _, Or.inr hb,
          set_from_sqlmodel_cons_err_tgt rest hb⟩
      | true =>
        have hsrc : hasAttr sqlmodel mf = true :=
          (hasAttr_iff_getAttr sqlmodel mf).mpr ⟨v, hg⟩
        have hbad2 : ∃ e ∈ rest, hasAttr sqlmodel e.1 = false ∨
            hasAttr (setAttr lf v self) e.2 = false := by
          obtain ⟨e, he, hor⟩ := hbad
          cases List.mem_cons.mp he with
          | inl heq =>
            rw [heq] at hor
            cases hor with
            | inl h0 => rw [hsrc] at h0; cases h0
            | inr h0 => rw [hb] at h0; cases h0
          | inr hin =>
            refine ⟨e, hin, ?_⟩
            cases hor with
            | inl h0 => exact Or.inl h0
            | inr h0 => exact Or.inr (by rw [hasAttr_setAttr]; exact h0)
        obtain ⟨e, he, hor2, hres⟩ := ih (setAttr lf v self) hbad2
        refine ⟨e, List.mem_cons_of_mem _ he, ?_, ?_⟩
        · cases hor2 with
          | inl h0 => exact Or.inl h0
          | inr h0 => exact Or.inr (by rwa [hasAttr_setAttr] at h0)
        · rw [set_from_sqlmodel_cons_ok rest hg hb]
          exact hres

theorem set_from_sqlmodel_frame {α : Type} (sqlmodel : List (String × α))
    (mapping : List (String × String)) :
    ∀ self r : List (String × α),
      set_from_sqlmodel sqlmodel self mapping = .ok r →
      ∀ n : String, (∀ e ∈ mapping, e.2 ≠ n) → getAttr r n = getAttr self n := by
  induction mapping with
  | nil =>
    intro self r h n _
    rw [Except.ok.inj h]
  | cons en rest ih =>
    intro self r h n hn
    obtain ⟨mf, lf⟩ := en
    cases hg : getAttr sqlmodel mf with
    | none => rw [set_from_sqlmodel_cons_err_src rest hg] at h; simp at h
    | some v =>
      cases hb : hasAttr self lf with
      | false => rw [set_from_sqlmodel_cons_err_tgt rest hb] at h; simp at h
      | true =>
        rw [set_from_sqlmodel_cons_ok rest hg hb] at h
        have h2 := ih (setAttr lf v self) r h n
          (fun e he => hn e (List.mem_cons_of_mem _ he))
        rw [h2, getAttr_setAttr_ne]
        exact Ne.symm (hn (mf, lf) (List.mem_cons_self _ _))

theorem set_from_sqlmodel_values {α : Type} (sqlmodel : List (String × α))
    (mapping : List (String × String)) :
    ∀ self r : List (String × α),
      set_from_sqlmodel sqlmodel self mapping = .ok r →
      (mapping.map Prod.snd).Nodup →
      ∀ e ∈ mapping, getAttr r e.2 = getAttr sqlmodel e.1 := by
  induction mapping with
  | nil => intro self r h hnd e he; simp at he
  | cons en rest ih =>
    intro self r h hnd e he
    obtain ⟨mf, lf⟩ := en
    cases hg : getAttr sqlmodel mf with
    | none => rw [set_from_sqlmodel_cons_err_src rest hg] at h; simp at h
    | some v =>
      cases hb : hasAttr self lf with
      | false => rw [set_from_sqlmodel_cons_err_tgt rest hb] at h; simp at h
      | true =>
        rw [set_from_sqlmodel_cons_ok rest hg hb] at h
        rw [List.map_cons, List.nodup_cons] at hnd
        obtain ⟨hlf, hnd2⟩ := hnd
        cases List.mem_cons.mp he with
        | inl heq =>
          rw [heq]
          have hfr : getAttr r lf = getAttr (setAttr lf v self) lf :=
            set_from_sqlmodel_frame sqlmodel rest (setAttr lf v self) r h lf
              (fun e2 he2 heq2 => hlf (List.mem_map.mpr ⟨e2, he2, heq2⟩))
          rw [hfr, getAttr_setAttr_self v hb, hg]
        | inr hin =>
          exact ih (setAttr lf v self) r h hnd2 e hin

/-
Claim theorems.
-/

/-- C1: the claim says the API key of an `LLMEndpointConfig` constructed
without an explicit key is read from the `<SUPPLIER>_API_KEY` variable of
the configured supplier.  The code does not do that: the field default of
`env_variable_name` is the f-string of config.py line 167, evaluated once
at class-definition time where `supplier` is the class-level default
(OPENAI), so every instance reads `OPENAI_API_KEY` whatever its supplier.
This theorem evaluates the code at a failing input: supplier ANTHROPIC
with only ANTHROPIC_API_KEY set in the environment; construction raises
the missing-key error naming OPENAI_API_KEY instead of reading
ANTHROPIC_API_KEY. -/
theorem C1_env_variable_name_is_constant :
    LLMEndpointConfig.defaults.env_variable_name = "OPENAI_API_KEY" ∧
    ({ LLMEndpointConfig.defaults with supplier := .ANTHROPIC } :
        LLMEndpointConfig).env_variable_name = "OPENAI_API_KEY" ∧
    LLMEndpointConfig.construct
        { LLMEndpointConfig.defaults with supplier := .ANTHROPIC, model := "claude-3-opus" }
        envAnthropicOnly
      = .error (.missingApiKey "anthropic" "OPENAI_API_KEY") :=
  ⟨by decide, by decide, by decide⟩

/-- C2: after a successful construction, a non-null supplier comes with a
non-null API key (for `LLMEndpointConfig` the supplier field is never
null), and when no key can be obtained (explicit key falsy and the
consulted environment variable absent/falsy for the endpoint; environment
variable absent for the reranker) construction fails with the missing-key
error rather than producing an object with a null key. -/
theorem C2_nonnull_supplier_has_key :
    (∀ (d : LLMEndpointConfig) (env : Env) (c : LLMEndpointConfig),
        LLMEndpointConfig.construct d env = .ok c → c.llm_api_key ≠ none) ∧
    (∀ (d : RerankerConfig) (env : Env) (r : RerankerConfig),
        RerankerConfig.construct d env = .ok r → r.supplier ≠ none →
        r.api_key ≠ none) ∧
    (∀ (d : LLMEndpointConfig) (env : Env),
        truthyStr d.llm_api_key = false →
        truthyStr (env d.env_variable_name) = false →
        LLMEndpointConfig.construct d env
          = .error (.missingApiKey d.supplier.val d.env_variable_name)) ∧
    (∀ (d : RerankerConfig) (env : Env) (s : DefaultRerankers),
        d.supplier = some s → env (RerankerConfig.api_key_var s) = none →
        RerankerConfig.construct d env
          = .error (.missingApiKey s.val (RerankerConfig.api_key_var s))) := by
  refine ⟨?_, ?_, ?_, ?_⟩
  · intro d env c h
    rw [LLMEndpointConfig.endpoint_construct_def] at h
    obtain ⟨hc, htruthy⟩ := LLMEndpointConfig.set_api_key_ok_inv h
    rw [hc]
    exact truthyStr_ne_none htruthy
  · intro d env r h hs
    rw [RerankerConfig.reranker_construct_def] at h
    cases hsup : d.supplier with
    | none =>
      rw [RerankerConfig.validate_model_of_no_supplier hsup] at h
      have hr := (Except.ok.inj h).symm
      rw [hr, RerankerConfig.apply_default_model_supplier, hsup] at hs
      exact absurd rfl hs
    | some s =>
      rw [RerankerConfig.validate_model_of_supplier hsup] at h
      cases he : env (RerankerConfig.api_key_var s) with
      | none => rw [he] at h; simp at h
      | some k =>
        rw [he] at h
        rw [← Except.ok.inj h]
        simp
  · intro d env h1 h2
    exact LLMEndpointConfig.construct_error_of_no_key h1 h2
  · intro d env s hs he
    rw [RerankerConfig.reranker_construct_def, RerankerConfig.validate_model_of_supplier hs, he]

/-- Witness for C2: instantiates the invariant on a successful endpoint
construction and a successful reranker construction. -/
theorem C2_nonnull_supplier_has_key_witness :
    endpointDefaultResult.llm_api_key ≠ none ∧
    cohereRerankerResult.api_key ≠ none :=
  ⟨C2_nonnull_supplier_has_key.1 LLMEndpointConfig.defaults envOpenAIOnly
      endpointDefaultResult (by decide),
   C2_nonnull_supplier_has_key.2.1
      { RerankerConfig.defaults with supplier := some .COHERE } envCohereOnly
      cohereRerankerResult (by decide) (by decide)⟩

/-- C4: constructing with supplier OPENAI (the default), model "gpt-4o",
no explicit key and OPENAI_API_KEY unset raises the missing-API-key
error. -/
theorem C4_gpt4o_without_openai_key_fails (env : Env)
    (h : env "OPENAI_API_KEY" = none) :
    LLMEndpointConfig.construct { LLMEndpointConfig.defaults with model := "gpt-4o" } env
      = .error (.missingApiKey "openai" "OPENAI_API_KEY") := by
  have h2 : truthyStr (env ({ LLMEndpointConfig.defaults with
      model := "gpt-4o" } : LLMEndpointConfig).env_variable_name) = false := by
    rw [show ({ LLMEndpointConfig.defaults with model := "gpt-4o" } :
          LLMEndpointConfig).env_variable_name = "OPENAI_API_KEY" from by decide, h]
    rfl
  rw [LLMEndpointConfig.construct_error_of_no_key (by decide) h2]
  decide

/-- Witness for C4: the empty environment. -/
theorem C4_gpt4o_without_openai_key_fails_witness :
    LLMEndpointConfig.construct { LLMEndpointConfig.defaults with model := "gpt-4o" } envEmpty
      = .error (.missingApiKey "openai" "OPENAI_API_KEY") :=
  C4_gpt4o_without_openai_key_fails envEmpty rfl

/-- C7: constructing `RerankerConfig(supplier=COHERE)` (no model) with
COHERE_API_KEY set defaults the model to "rerank-multilingual-v3.0" and
stores the environment value as the key. -/
theorem C7_cohere_defaults_model (env : Env) (k : String)
    (h : env "COHERE_API_KEY" = some k) :
    RerankerConfig.construct { RerankerConfig.defaults with supplier := some .COHERE } env
      = .ok { supplier := some .COHERE, model := some "rerank-multilingual-v3.0",
              top_n := 5, api_key := some k } := by
  rw [RerankerConfig.reranker_construct_def,
      RerankerConfig.validate_model_of_supplier (s := .COHERE) (by decide),
      show RerankerConfig.api_key_var .COHERE = "COHERE_API_KEY" from by decide, h]
  rfl

/-- Witness for C7: an environment with COHERE_API_KEY set. -/
theorem C7_cohere_defaults_model_witness :
    RerankerConfig.construct { RerankerConfig.defaults with supplier := some .COHERE }
        envCohereOnly = .ok cohereRerankerResult :=
  C7_cohere_defaults_model envCohereOnly "cohere-key" (by decide)

/-- C3: for every registered (supplier, key) pair, looking up the key with
a "-ft" suffix appended returns that entry's config (matching is by
startswith against the registry keys), and the lookup loop returns the
config of the first matching key in registration order. -/
theorem C3_registered_ft_lookup :
    (∀ p ∈ LLMModelConfig.model_defaults, ∀ q ∈ p.2,
       LLMModelConfig.get_llm_model_config p.1 (q.1 ++ "-ft") = some q.2) ∧
    (∀ (model_name : String) (l : List (String × LLMConfig)),
       LLMModelConfig.firstMatchingConfig model_name l
         = (l.find? (fun q => pyStartsWith model_name q.1)).map Prod.snd) :=
  ⟨by decide, LLMModelConfig.firstMatchingConfig_eq_find⟩

/-- Witness for C3: the lookup of "gpt-4o-ft" under OPENAI returns the
registered gpt-4o entry. -/
theorem C3_registered_ft_lookup_witness :
    LLMModelConfig.get_llm_model_config .OPENAI ("gpt-4o" ++ "-ft")
      = some { context := some 128000, tokenizer_hub := some "Xenova/gpt-4o" } :=
  C3_registered_ft_lookup.1 (.OPENAI, LLMModelConfig.openai_models) (by decide)
    ("gpt-4o", { context := some 128000, tokenizer_hub := some "Xenova/gpt-4o" })
    (by decide)

/-- C5: `set_llm_model` raises the unknown-model error exactly when the
reverse lookup finds no supplier; the reverse lookup returns none exactly
when no registered key of any supplier is a startswith-match, and it is
the first match over the suppliers in registration order. -/
theorem C5_unknown_model_error :
    (∀ model : String,
       LLMModelConfig.get_supplier_by_model_name model = none ↔
       ∀ p ∈ LLMModelConfig.model_defaults, ∀ q ∈ p.2,
         pyStartsWith model q.1 = false) ∧
    (∀ (c : LLMEndpointConfig) (model : String) (env : Env),
       LLMModelConfig.get_supplier_by_model_name model = none →
       LLMEndpointConfig.set_llm_model c model env
         = .error (.unknownModel model)) ∧
    (∀ model : String,
       LLMModelConfig.get_supplier_by_model_name model
         = (LLMModelConfig.model_defaults.find?
              (fun p => p.2.any (fun q => pyStartsWith model q.1))).map
             Prod.fst) := by
  refine ⟨?_, ?_, ?_⟩
  · intro model
    rw [LLMModelConfig.get_supplier_by_model_name,
        LLMModelConfig.firstMatchingSupplier_eq_find,
        Option.map_eq_none', List.find?_eq_none]
    constructor
    · intro H p hp
      have h1 : LLMModelConfig.anyKeyMatches model p.2 = false := by
        simpa using H p hp
      exact (LLMModelConfig.anyKeyMatches_false_iff model p.2).mp h1
    · intro H p hp
      have h1 : LLMModelConfig.anyKeyMatches model p.2 = false :=
        (LLMModelConfig.anyKeyMatches_false_iff model p.2).mpr (H p hp)
      simp [h1]
  · intro c model env h
    exact LLMEndpointConfig.set_llm_model_of_none h
  · intro model
    rw [LLMModelConfig.get_supplier_by_model_name,
        LLMModelConfig.firstMatchingSupplier_eq_find]
    simp only [LLMModelConfig.anyKeyMatches_eq_any]

/-- Witness for C5: "mystery-model" matches no registered key, so
`set_llm_model` fails with the unknown-model error. -/
theorem C5_unknown_model_error_witness :
    LLMEndpointConfig.set_llm_model LLMEndpointConfig.defaults "mystery-model" envEmpty
      = .error (.unknownModel "mystery-model") :=
  C5_unknown_model_error.2.1 LLMEndpointConfig.defaults "mystery-model" envEmpty
    (by decide)

/-- C6: whenever `set_llm_model("claude-3-opus-20240229")` succeeds, the
resulting config has supplier ANTHROPIC and context_length 200000 (the
registered claude-3-opus entry). -/
theorem C6_set_llm_model_claude_opus (c c2 : LLMEndpointConfig) (env : Env)
    (h : LLMEndpointConfig.set_llm_model c "claude-3-opus-20240229" env = .ok c2) :
    c2.supplier = .ANTHROPIC ∧ c2.context_length = some 200000 := by
  obtain ⟨h1, -, h3, -⟩ :=
    LLMEndpointConfig.set_llm_model_ok_inv (s := .ANTHROPIC)
      (g := { context := some 200000, tokenizer_hub := some "Xenova/claude-tokenizer" })
      (by decide) (by decide) h
  exact ⟨h1, h3⟩

/-- Witness for C6: the default config under an environment with
OPENAI_API_KEY set. -/
theorem C6_set_llm_model_claude_opus_witness :
    claudeOpusResult.supplier = .ANTHROPIC ∧
    claudeOpusResult.context_length = some 200000 :=
  C6_set_llm_model_claude_opus LLMEndpointConfig.defaults claudeOpusResult
    envOpenAIOnly (by decide)

/-- C8: `set_from_sqlmodel` (objects embedded as finite attribute maps)
raises the invalid-mapping error, naming an offending entry, whenever some
mapping entry has a source attribute missing from the source object or a
target attribute missing from the config; when every mapped attribute
exists on both sides it succeeds, and (for pairwise-distinct target
fields, the shape the code is written for) each target attribute of the
result holds the corresponding source value. -/
theorem C8_set_from_sqlmodel_attr_mapping {α : Type}
    (sqlmodel self : List (String × α)) (mapping : List (String × String)) :
    ((∃ e ∈ mapping, hasAttr sqlmodel e.1 = false ∨ hasAttr self e.2 = false) →
       ∃ e ∈ mapping, (hasAttr sqlmodel e.1 = false ∨ hasAttr self e.2 = false) ∧
         set_from_sqlmodel sqlmodel self mapping
           = .error (.invalidMapping e.1 e.2)) ∧
    ((∀ e ∈ mapping, hasAttr sqlmodel e.1 = true ∧ hasAttr self e.2 = true) →
       ∃ r, set_from_sqlmodel sqlmodel self mapping = .ok r ∧
         ((mapping.map Prod.snd).Nodup →
           ∀ e ∈ mapping, getAttr r e.2 = getAttr sqlmodel e.1)) := by
  constructor
  · exact set_from_sqlmodel_error_of_invalid sqlmodel mapping self
  · intro H
    obtain ⟨r, hr⟩ := (set_from_sqlmodel_ok_iff sqlmodel mapping self).mpr H
    exact ⟨r, hr, fun hnd => set_from_sqlmodel_values sqlmodel mapping self r hr hnd⟩

/-- Witness for C8: a mapping entry with a missing source attribute fails;
a fully valid mapping copies the source value onto the config attribute. -/
theorem C8_set_from_sqlmodel_attr_mapping_witness :
    (∃ e ∈ ([("bad_source", "max_input_tokens")] : List (String × String)),
       (hasAttr ([("max_input", "7")] : List (String × String)) e.1 = false ∨
         hasAttr ([("max_input_tokens", "2000")] : List (String × String)) e.2
           = false) ∧
       set_from_sqlmodel [("max_input", "7")] [("max_input_tokens", "2000")]
           [("bad_source", "max_input_tokens")]
         = .error (.invalidMapping e.1 e.2)) ∧
    (∃ r, set_from_sqlmodel [("max_input", "7")] [("max_input_tokens", "2000")]
           [("max_input", "max_input_tokens")] = .ok r ∧
       ((([("max_input", "max_input_tokens")] :
            List (String × String)).map Prod.snd).Nodup →
         ∀ e ∈ ([("max_input", "max_input_tokens")] : List (String × String)),
           getAttr r e.2 = getAttr [("max_input", "7")] e.1)) :=
  ⟨(C8_set_from_sqlmodel_attr_mapping [("max_input", "7")]
      [("max_input_tokens", "2000")] [("bad_source", "max_input_tokens")]).1
      (by decide),
   (C8_set_from_sqlmodel_attr_mapping [("max_input", "7")]
      [("max_input_tokens", "2000")] [("max_input", "max_input_tokens")]).2
      (by decide)⟩

/-- C9: when the model matches no registered key of the supplier, the
registry miss itself never makes construction fail: a success keeps every
field as passed (context_length and tokenizer_hub included; only
llm_api_key may change), any failure is the missing-API-key error, and
whenever a truthy key is available (explicitly or from the environment)
construction succeeds. -/
theorem C9_unknown_model_frame (d : LLMEndpointConfig) (env : Env)
    (h : LLMModelConfig.get_llm_model_config d.supplier d.model = none) :
    (∀ c2, LLMEndpointConfig.construct d env = .ok c2 →
       c2.supplier = d.supplier ∧ c2.model = d.model ∧
       c2.context_length = d.context_length ∧
       c2.tokenizer_hub = d.tokenizer_hub ∧
       c2.llm_base_url = d.llm_base_url ∧
       c2.env_variable_name = d.env_variable_name ∧
       c2.max_input_tokens = d.max_input_tokens ∧
       c2.max_output_tokens = d.max_output_tokens ∧
       c2.temperature = d.temperature ∧
       c2.streaming = d.streaming ∧ c2.prompt = d.prompt) ∧
    (∀ e, LLMEndpointConfig.construct d env = .error e →
       e = .missingApiKey d.supplier.val d.env_variable_name) ∧
    ((truthyStr d.llm_api_key = true ∨
        truthyStr (env d.env_variable_name) = true) →
       ∃ c2, LLMEndpointConfig.construct d env = .ok c2) := by
  have hmc := LLMEndpointConfig.set_llm_model_config_of_none h
  refine ⟨?_, ?_, ?_⟩
  · intro c2 hc
    rw [LLMEndpointConfig.endpoint_construct_def, hmc] at hc
    obtain ⟨he, -⟩ := LLMEndpointConfig.set_api_key_ok_inv hc
    rw [he]
    exact ⟨rfl, rfl, rfl, rfl, rfl, rfl, rfl, rfl, rfl, rfl, rfl⟩
  · intro e hc
    rw [LLMEndpointConfig.endpoint_construct_def, hmc] at hc
    exact (LLMEndpointConfig.set_api_key_error_inv hc).1
  · intro hk
    rw [LLMEndpointConfig.endpoint_construct_def, hmc]
    by_cases h1 : truthyStr d.llm_api_key = true
    · refine ⟨_, LLMEndpointConfig.set_api_key_ok_of_truthy ?_⟩
      rw [LLMEndpointConfig.effective_key_of_truthy h1]
      exact h1
    · have h1f : truthyStr d.llm_api_key = false := by simpa using h1
      have hk2 : truthyStr (env d.env_variable_name) = true := by
        cases hk with
        | inl hkk => exact absurd hkk h1
        | inr hkk => exact hkk
      refine ⟨_, LLMEndpointConfig.set_api_key_ok_of_truthy ?_⟩
      rw [LLMEndpointConfig.effective_key_of_falsy h1f]
      exact hk2

/-- Witness for C9: the default supplier OPENAI with the unregistered
model name "mystery-model" constructs successfully once OPENAI_API_KEY is
set. -/
theorem C9_unknown_model_frame_witness :
    ∃ c2, LLMEndpointConfig.construct mysteryModelInput envOpenAIOnly = .ok c2 :=
  (C9_unknown_model_frame mysteryModelInput envOpenAIOnly (by decide)).2.2
    (Or.inr (by decide))

/-- C10: for a `RerankerConfig` constructed with a non-null supplier, the
resulting api_key is always the value of the supplier's environment
variable (any explicitly passed api_key is overwritten), and construction
fails with the missing-key error when that variable is unset, explicit
key or not. -/
theorem C10_reranker_key_always_from_env (d : RerankerConfig) (env : Env)
    (s : DefaultRerankers) (hs : d.supplier = some s) :
    (env (RerankerConfig.api_key_var s) = none →
       RerankerConfig.construct d env
         = .error (.missingApiKey s.val (RerankerConfig.api_key_var s))) ∧
    (∀ r, RerankerConfig.construct d env = .ok r →
       r.api_key = env (RerankerConfig.api_key_var s)) := by
  constructor
  · intro he
    rw [RerankerConfig.reranker_construct_def, RerankerConfig.validate_model_of_supplier hs, he]
  · intro r h
    rw [RerankerConfig.reranker_construct_def, RerankerConfig.validate_model_of_supplier hs] at h
    cases he : env (RerankerConfig.api_key_var s) with
    | none => rw [he] at h; simp at h
    | some k =>
      rw [he] at h
      rw [← Except.ok.inj h]

/-- Witness for C10: construction with an explicit api_key and the
supplier's variable unset fails; with the variable set, the stored key is
the environment value, not the explicit one. -/
theorem C10_reranker_key_always_from_env_witness :
    RerankerConfig.construct
        { RerankerConfig.defaults with supplier := some .COHERE, api_key := some "explicit-key" }
        envEmpty
      = .error (.missingApiKey "cohere" (RerankerConfig.api_key_var .COHERE)) ∧
    cohereRerankerResult.api_key = envCohereOnly (RerankerConfig.api_key_var .COHERE) :=
  ⟨(C10_reranker_key_always_from_env
      { RerankerConfig.defaults with supplier := some .COHERE, api_key := some "explicit-key" }
      envEmpty .COHERE rfl).1 rfl,
   (C10_reranker_key_always_from_env
      { RerankerConfig.defaults with supplier := some .COHERE }
      envCohereOnly .COHERE rfl).2 cohereRerankerResult (by decide)⟩

end QuivrConfig
